import Mathlib

/-!
Verification of the Dummy_Agent bootstrap module (src/Dummy_Agent/__main__.py).

The module builds two static descriptor records (a skill descriptor and an
agent descriptor), pairs a trivial executor with an in-memory task store in a
request handler, wraps both in a Starlette application, and starts uvicorn on
host "0.0.0.0", port 9999.  We embed the data model, the straight-line
construction sequence (with explicit fallibility of each construction step, so
that exception propagation can be stated), and the trace of construction
events that one execution of `main` produces.
-/

namespace DummyAgent

/-- Model of the framework data type a2a.types.AgentSkill, with the fields the
source module supplies. -/
structure AgentSkill where
  id : String
  name : String
  description : String
  tags : List String
  examples : List String
deriving DecidableEq

/-- Modelled from the spec: the framework type a2a.types.AgentCapabilities is a
record of optional capability flags (streaming, push notifications, state
transition history), each unset unless supplied; the source instantiates it
with no arguments. -/
structure AgentCapabilities where
  streaming : Option Bool := none
  pushNotifications : Option Bool := none
  stateTransitionHistory : Option Bool := none
deriving DecidableEq

/-- Model of the framework data type a2a.types.AgentCard, with the fields the
source module supplies. -/
structure AgentCard where
  name : String
  description : String
  url : String
  defaultInputModes : List String
  defaultOutputModes : List String
  skills : List AgentSkill
  version : String
  capabilities : AgentCapabilities
deriving DecidableEq

/-- Modelled from the spec: GreetingAgentExecutor (agent_executor.py, not under
src/) is a trivial executor not shown to do anything beyond returning a fixed
greeting; it carries no configuration state. -/
structure GreetingAgentExecutor where
deriving DecidableEq

/-- Modelled from the spec: a2a.server.tasks.InMemoryTaskStore is an in-memory
store, created empty. -/
structure InMemoryTaskStore where
  tasks : List (String × String) := []
deriving DecidableEq

/-- Model of a2a.server.request_handlers.DefaultRequestHandler as instantiated
by the source: an executor paired with a task store. -/
structure DefaultRequestHandler where
  agent_executor : GreetingAgentExecutor
  task_store : InMemoryTaskStore
deriving DecidableEq

/-- Model of a2a.server.apps.A2AStarletteApplication as instantiated by the
source: a request handler together with the agent card. -/
structure A2AStarletteApplication where
  http_handler : DefaultRequestHandler
  agent_card : AgentCard
deriving DecidableEq

/-- Modelled from the spec: server.build() produces the ASGI application that
exposes the routes the framework defines for the given application. -/
structure ASGIApp where
  source : A2AStarletteApplication
deriving DecidableEq

/-- The skill descriptor literal built by main (src/Dummy_Agent/__main__.py
lines 10-16). -/
def greeting_skill : AgentSkill :=
  { id := "hello_world"
  , name := "Greet"
  , description := "Return a greeting"
  , tags := ["greeting", "hello", "world"]
  , examples := ["Hey", "Hi", "Hello"] }

/-- The agent descriptor built by main from the given capabilities record and
skill (src/Dummy_Agent/__main__.py lines 18-27): every other field is a
literal. -/
def mkCardPure (caps : AgentCapabilities) (skill : AgentSkill) : AgentCard :=
  { name := "Greeting Agent"
  , description := "A simple agent that returns a greeting"
  , url := "http://localhost:9999/"
  , defaultInputModes := ["text"]
  , defaultOutputModes := ["text"]
  , skills := [skill]
  , version := "1.0.0"
  , capabilities := caps }

/-- The agent descriptor value main constructs: mkCardPure applied to the
default capabilities record and the greeting skill. -/
def agent_card : AgentCard := mkCardPure {} greeting_skill

/-- The request handler main constructs (lines 30-33). -/
def request_handler : DefaultRequestHandler :=
  { agent_executor := {}, task_store := {} }

/-- The application main constructs (lines 37-40). -/
def server : A2AStarletteApplication :=
  { http_handler := request_handler, agent_card := agent_card }

/-- Errors an exception raised by a construction step or the framework is
modelled as. -/
abbrev Err : Type := String

/-- One observable step of an execution of main. -/
inductive Event where
  | constructSkill (s : AgentSkill)
  | constructCapabilities (c : AgentCapabilities)
  | constructCard (c : AgentCard)
  | constructExecutor (e : GreetingAgentExecutor)
  | constructStore (s : InMemoryTaskStore)
  | constructHandler (h : DefaultRequestHandler)
  | constructApplication (a : A2AStarletteApplication)
  | buildApp (b : ASGIApp)
  | uvicornRun (app : ASGIApp) (host : String) (port : Nat)
deriving DecidableEq

/-- The straight-line body of main, parameterised over each construction step
as a fallible operation so that exception propagation is explicit.  There is
no handler anywhere in the chain: the first error short-circuits the rest.
The host and port literals are exactly those of line 43 of the source. -/
def runMain (mkSkill : Except Err AgentSkill)
    (mkCapabilities : Except Err AgentCapabilities)
    (mkCard : AgentCapabilities → AgentSkill → Except Err AgentCard)
    (mkExecutor : Except Err GreetingAgentExecutor)
    (mkStore : Except Err InMemoryTaskStore)
    (mkHandler : GreetingAgentExecutor → InMemoryTaskStore →
      Except Err DefaultRequestHandler)
    (mkApplication : DefaultRequestHandler → AgentCard →
      Except Err A2AStarletteApplication)
    (build : A2AStarletteApplication → Except Err ASGIApp)
    (runServer : ASGIApp → String → Nat → Except Err Unit) :
    Except Err (List Event) := do
  let skill ← mkSkill
  let caps ← mkCapabilities
  let card ← mkCard caps skill
  let execu ← mkExecutor
  let store ← mkStore
  let handler ← mkHandler execu store
  let app ← mkApplication handler card
  let built ← build app
  let _ ← runServer built "0.0.0.0" 9999
  pure [Event.constructSkill skill,
        Event.constructCapabilities caps,
        Event.constructCard card,
        Event.constructExecutor execu,
        Event.constructStore store,
        Event.constructHandler handler,
        Event.constructApplication app,
        Event.buildApp built,
        Event.uvicornRun built "0.0.0.0" 9999]

/-- The AgentSkill construction of lines 10-16: a Pydantic model built from
well-typed literals, which raises no validation error. -/
def mkSkillImpl : Except Err AgentSkill := .ok greeting_skill

/-- The AgentCapabilities construction of line 26. -/
def mkCapabilitiesImpl : Except Err AgentCapabilities := .ok {}

/-- The AgentCard construction of lines 18-27. -/
def mkCardImpl (caps : AgentCapabilities) (skill : AgentSkill) :
    Except Err AgentCard := .ok (mkCardPure caps skill)

/-- The GreetingAgentExecutor construction of line 31. -/
def mkExecutorImpl : Except Err GreetingAgentExecutor := .ok {}

/-- The InMemoryTaskStore construction of line 32. -/
def mkStoreImpl : Except Err InMemoryTaskStore := .ok {}

/-- The DefaultRequestHandler construction of lines 30-33. -/
def mkHandlerImpl (e : GreetingAgentExecutor) (s : InMemoryTaskStore) :
    Except Err DefaultRequestHandler :=
  .ok { agent_executor := e, task_store := s }

/-- The A2AStarletteApplication construction of lines 37-40. -/
def mkApplicationImpl (h : DefaultRequestHandler) (c : AgentCard) :
    Except Err A2AStarletteApplication :=
  .ok { http_handler := h, agent_card := c }

/-- The server.build() call of line 43. -/
def buildImpl (a : A2AStarletteApplication) : Except Err ASGIApp :=
  .ok { source := a }

/-- The uvicorn.run call of line 43, viewed up to the point the listener is
started. -/
def uvicornRunImpl (_ : ASGIApp) (_ : String) (_ : Nat) : Except Err Unit :=
  .ok ()

/-- One execution of main.  The `world` argument stands for the ambient state
of the process environment; main reads none of it. -/
def mainE (_world : Nat) : Except Err (List Event) :=
  runMain mkSkillImpl mkCapabilitiesImpl mkCardImpl mkExecutorImpl mkStoreImpl
    mkHandlerImpl mkApplicationImpl buildImpl uvicornRunImpl

/-- The trace of construction events one execution of main produces. -/
def mainTrace (_world : Nat) : List Event :=
  [Event.constructSkill greeting_skill,
   Event.constructCapabilities {},
   Event.constructCard agent_card,
   Event.constructExecutor {},
   Event.constructStore {},
   Event.constructHandler request_handler,
   Event.constructApplication server,
   Event.buildApp { source := server },
   Event.uvicornRun { source := server } "0.0.0.0" 9999]

/-- The (host, port) arguments of every uvicorn.run call in a trace. -/
def runCalls (t : List Event) : List (String × Nat) :=
  t.filterMap fun e =>
    match e with
    | .uvicornRun _ h p => some (h, p)
    | _ => none

/-- The agent card of every application handed to the application builder in a
trace. -/
def cardsHandedToBuilder (t : List Event) : List AgentCard :=
  t.filterMap fun e =>
    match e with
    | .constructApplication a => some a.agent_card
    | _ => none

/-- Modelled from the spec: the conventional well-known path at which the
framework serves the discovery document. -/
def wellKnownPath : String := "/.well-known/agent.json"

/-- Modelled from the spec: the discovery document the framework serves at
startup renders verbatim the agent card of the application that was started;
we extract that card from the uvicorn.run event of a trace. -/
def servedCard (t : List Event) : Option AgentCard :=
  (t.filterMap fun e =>
    match e with
    | .uvicornRun b _ _ => some b.source.agent_card
    | _ => none).head?

/-- Every occurrence of the agent card anywhere in a trace after (or at) its
construction: the construction event itself, the application it is a field of,
the built ASGI application, and the application handed to uvicorn.run. -/
def cardsMentioned (t : List Event) : List AgentCard :=
  t.filterMap fun e =>
    match e with
    | .constructCard c => some c
    | .constructApplication a => some a.agent_card
    | .buildApp b => some b.source.agent_card
    | .uvicornRun b _ _ => some b.source.agent_card
    | _ => none

/-- Every occurrence of the skill descriptor in a trace: the construction
event and the skills list of every mentioned card. -/
def skillsMentioned (t : List Event) : List AgentSkill :=
  (t.filterMap fun e =>
    match e with
    | .constructSkill s => some [s]
    | _ => none).flatten ++ (cardsMentioned t).flatMap (fun c => c.skills)

/-- Drops everything up to and including the scheme separator of a URL. -/
def afterScheme : List Char → List Char
  | [] => []
  | ':' :: '/' :: '/' :: rest => rest
  | _ :: rest => afterScheme rest

/-- The authority component of a URL: the part between the scheme separator
and the first slash of the path. -/
def urlAuthorityChars (u : String) : List Char :=
  (afterScheme u.data).takeWhile (fun c => c ≠ '/')

/-- The host named in a URL. -/
def urlHost (u : String) : String :=
  String.mk ((urlAuthorityChars u).takeWhile (fun c => c ≠ ':'))

/-- The characters after the colon of the authority component of a URL. -/
def urlPortChars (u : String) : List Char :=
  ((urlAuthorityChars u).dropWhile (fun c => c ≠ ':')).drop 1

/-- Reads a decimal numeral. -/
def digitsToNat : List Char → Nat → Option Nat
  | [], acc => some acc
  | c :: rest, acc =>
    if c.isDigit then digitsToNat rest (acc * 10 + (c.toNat - 48)) else none

/-- The port named in a URL, when one is present. -/
def urlPort (u : String) : Option Nat :=
  match urlPortChars u with
  | [] => none
  | l => digitsToNat l 0

/-- C1: the two static descriptor records constructed at startup equal their
literal values: the skill descriptor carries id "hello_world", name "Greet",
description "Return a greeting", the three tags and three examples; the agent
descriptor carries name "Greeting Agent", its description, the localhost URL,
text input and output modes, version "1.0.0", and exactly that one skill. -/
theorem descriptors_equal_their_literals :
    greeting_skill =
      { id := "hello_world"
      , name := "Greet"
      , description := "Return a greeting"
      , tags := ["greeting", "hello", "world"]
      , examples := ["Hey", "Hi", "Hello"] } ∧
    agent_card =
      { name := "Greeting Agent"
      , description := "A simple agent that returns a greeting"
      , url := "http://localhost:9999/"
      , defaultInputModes := ["text"]
      , defaultOutputModes := ["text"]
      , skills := [greeting_skill]
      , version := "1.0.0"
      , capabilities := {} } :=
  ⟨rfl, rfl⟩

/-- C2: in every execution of main, the discovery document the framework
serves at startup at the conventional well-known path renders exactly the
agent card handed to the application builder, so the fixed descriptor fields
appear in it verbatim. -/
theorem discovery_document_serves_builder_card :
    ∀ w : Nat,
      wellKnownPath = "/.well-known/agent.json" ∧
      servedCard (mainTrace w) = (cardsHandedToBuilder (mainTrace w)).head? ∧
      servedCard (mainTrace w) = some agent_card ∧
      agent_card.name = "Greeting Agent" ∧
      agent_card.description = "A simple agent that returns a greeting" ∧
      agent_card.url = "http://localhost:9999/" ∧
      agent_card.defaultInputModes = ["text"] ∧
      agent_card.defaultOutputModes = ["text"] ∧
      agent_card.version = "1.0.0" ∧
      agent_card.skills = [greeting_skill] :=
  fun _ => ⟨rfl, rfl, rfl, rfl, rfl, rfl, rfl, rfl, rfl, rfl⟩

/-- C3: in every execution of main, uvicorn.run is called exactly once, with
host "0.0.0.0" and port 9999. -/
theorem uvicorn_run_called_once_with_fixed_host_and_port :
    ∀ w : Nat, runCalls (mainTrace w) = [("0.0.0.0", 9999)] :=
  fun _ => rfl

/-- C4: every execution of main completes all construction steps and reaches
the server run call without an error: the fallible chain returns ok with the
full event trace, so the error branch is never taken. -/
theorem main_completes_without_raising :
    ∀ w : Nat, mainE w = Except.ok (mainTrace w) :=
  fun _ => rfl

/-- C5: every execution of main constructs exactly one GreetingAgentExecutor
and exactly one InMemoryTaskStore (the store created empty), and the request
handler it builds pairs exactly those two freshly constructed values. -/
theorem handler_pairs_fresh_executor_and_store :
    ∀ w : Nat,
      (mainTrace w).count (Event.constructExecutor {}) = 1 ∧
      (mainTrace w).count (Event.constructStore {}) = 1 ∧
      (mainTrace w).count
        (Event.constructHandler { agent_executor := {}, task_store := {} }) =
        1 ∧
      request_handler = { agent_executor := {}, task_store := {} } ∧
      request_handler.task_store.tasks = [] :=
  fun _ => ⟨rfl, rfl, rfl, rfl, rfl⟩

/-- C6: main catches nothing: whichever construction step or framework call
fails first, its error is the result of the whole run, and the actual main is
exactly this uncaught chain applied to the concrete construction steps. -/
theorem failures_propagate_uncaught :
    (∀ (e : Err) (c2 : Except Err AgentCapabilities)
        (c3 : AgentCapabilities → AgentSkill → Except Err AgentCard)
        (c4 : Except Err GreetingAgentExecutor)
        (c5 : Except Err InMemoryTaskStore)
        (c6 : GreetingAgentExecutor → InMemoryTaskStore →
          Except Err DefaultRequestHandler)
        (c7 : DefaultRequestHandler → AgentCard →
          Except Err A2AStarletteApplication)
        (c8 : A2AStarletteApplication → Except Err ASGIApp)
        (c9 : ASGIApp → String → Nat → Except Err Unit),
      runMain (Except.error e) c2 c3 c4 c5 c6 c7 c8 c9 = Except.error e) ∧
    (∀ (s1 : AgentSkill) (e : Err)
        (c3 : AgentCapabilities → AgentSkill → Except Err AgentCard)
        (c4 : Except Err GreetingAgentExecutor)
        (c5 : Except Err InMemoryTaskStore)
        (c6 : GreetingAgentExecutor → InMemoryTaskStore →
          Except Err DefaultRequestHandler)
        (c7 : DefaultRequestHandler → AgentCard →
          Except Err A2AStarletteApplication)
        (c8 : A2AStarletteApplication → Except Err ASGIApp)
        (c9 : ASGIApp → String → Nat → Except Err Unit),
      runMain (Except.ok s1) (Except.error e) c3 c4 c5 c6 c7 c8 c9 =
        Except.error e) ∧
    (∀ (s1 : AgentSkill) (a2 : AgentCapabilities) (e : Err)
        (c4 : Except Err GreetingAgentExecutor)
        (c5 : Except Err InMemoryTaskStore)
        (c6 : GreetingAgentExecutor → InMemoryTaskStore →
          Except Err DefaultRequestHandler)
        (c7 : DefaultRequestHandler → AgentCard →
          Except Err A2AStarletteApplication)
        (c8 : A2AStarletteApplication → Except Err ASGIApp)
        (c9 : ASGIApp → String → Nat → Except Err Unit),
      runMain (Except.ok s1) (Except.ok a2) (fun _ _ => Except.error e)
        c4 c5 c6 c7 c8 c9 = Except.error e) ∧
    (∀ (s1 : AgentSkill) (a2 : AgentCapabilities) (e : Err)
        (c5 : Except Err InMemoryTaskStore)
        (c6 : GreetingAgentExecutor → InMemoryTaskStore →
          Except Err DefaultRequestHandler)
        (c7 : DefaultRequestHandler → AgentCard →
          Except Err A2AStarletteApplication)
        (c8 : A2AStarletteApplication → Except Err ASGIApp)
        (c9 : ASGIApp → String → Nat → Except Err Unit),
      runMain (Except.ok s1) (Except.ok a2) mkCardImpl (Except.error e)
        c5 c6 c7 c8 c9 = Except.error e) ∧
    (∀ (s1 : AgentSkill) (a2 : AgentCapabilities)
        (e4 : GreetingAgentExecutor) (e : Err)
        (c6 : GreetingAgentExecutor → InMemoryTaskStore →
          Except Err DefaultRequestHandler)
        (c7 : DefaultRequestHandler → AgentCard →
          Except Err A2AStarletteApplication)
        (c8 : A2AStarletteApplication → Except Err ASGIApp)
        (c9 : ASGIApp → String → Nat → Except Err Unit),
      runMain (Except.ok s1) (Except.ok a2) mkCardImpl (Except.ok e4)
        (Except.error e) c6 c7 c8 c9 = Except.error e) ∧
    (∀ (s1 : AgentSkill) (a2 : AgentCapabilities)
        (e4 : GreetingAgentExecutor) (s5 : InMemoryTaskStore) (e : Err)
        (c7 : DefaultRequestHandler → AgentCard →
          Except Err A2AStarletteApplication)
        (c8 : A2AStarletteApplication → Except Err ASGIApp)
        (c9 : ASGIApp → String → Nat → Except Err Unit),
      runMain (Except.ok s1) (Except.ok a2) mkCardImpl (Except.ok e4)
        (Except.ok s5) (fun _ _ => Except.error e) c7 c8 c9 =
        Except.error e) ∧
    (∀ (s1 : AgentSkill) (a2 : AgentCapabilities)
        (e4 : GreetingAgentExecutor) (s5 : InMemoryTaskStore) (e : Err)
        (c8 : A2AStarletteApplication → Except Err ASGIApp)
        (c9 : ASGIApp → String → Nat → Except Err Unit),
      runMain (Except.ok s1) (Except.ok a2) mkCardImpl (Except.ok e4)
        (Except.ok s5) mkHandlerImpl (fun _ _ => Except.error e) c8 c9 =
        Except.error e) ∧
    (∀ (s1 : AgentSkill) (a2 : AgentCapabilities)
        (e4 : GreetingAgentExecutor) (s5 : InMemoryTaskStore) (e : Err)
        (c9 : ASGIApp → String → Nat → Except Err Unit),
      runMain (Except.ok s1) (Except.ok a2) mkCardImpl (Except.ok e4)
        (Except.ok s5) mkHandlerImpl mkApplicationImpl
        (fun _ => Except.error e) c9 = Except.error e) ∧
    (∀ (s1 : AgentSkill) (a2 : AgentCapabilities)
        (e4 : GreetingAgentExecutor) (s5 : InMemoryTaskStore) (e : Err),
      runMain (Except.ok s1) (Except.ok a2) mkCardImpl (Except.ok e4)
        (Except.ok s5) mkHandlerImpl mkApplicationImpl buildImpl
        (fun _ _ _ => Except.error e) = Except.error e) ∧
    (∀ w : Nat,
      mainE w = runMain mkSkillImpl mkCapabilitiesImpl mkCardImpl
        mkExecutorImpl mkStoreImpl mkHandlerImpl mkApplicationImpl buildImpl
        uvicornRunImpl) := by
  refine ⟨?_, ?_, ?_, ?_, ?_, ?_, ?_, ?_, ?_, ?_⟩ <;> intros <;> rfl

/-- C7: main is straight-line and reads no input: any two executions produce
the same trace, hence the same skill descriptor, agent descriptor, handler
configuration, and host and port arguments of the run call. -/
theorem main_is_deterministic :
    ∀ w₁ w₂ : Nat,
      mainTrace w₁ = mainTrace w₂ ∧
      mainE w₁ = mainE w₂ ∧
      runCalls (mainTrace w₁) = runCalls (mainTrace w₂) :=
  fun _ _ => ⟨rfl, rfl, rfl⟩

/-- C8: in every execution of main, every later mention of the agent
descriptor (the application it is a field of, the built application, the
application handed to the run call) is exactly the constructed card, and
every mention of the skill descriptor is exactly the constructed skill: no
step after construction changes any field. -/
theorem descriptors_never_modified_after_construction :
    ∀ w : Nat,
      cardsMentioned (mainTrace w) =
        [agent_card, agent_card, agent_card, agent_card] ∧
      skillsMentioned (mainTrace w) =
        [greeting_skill, greeting_skill, greeting_skill, greeting_skill,
         greeting_skill] :=
  fun _ => ⟨rfl, rfl⟩

/-- C9: the port named in the advertised URL of the agent descriptor equals
the port 9999 of the run call of every execution, while the advertised host
"localhost" differs from the bind host "0.0.0.0" of the run call. -/
theorem advertised_url_port_matches_bind_port_host_differs :
    ∀ w : Nat,
      runCalls (mainTrace w) = [("0.0.0.0", 9999)] ∧
      urlPort agent_card.url = some 9999 ∧
      urlHost agent_card.url = "localhost" ∧
      urlHost agent_card.url ≠ "0.0.0.0" :=
  fun _ => ⟨rfl, by decide, by decide, by decide⟩

/-- C10: the capabilities field of the agent descriptor is the
default-constructed capabilities record: no optional capability (streaming,
push notifications, state transition history) is set. -/
theorem capabilities_default_constructed :
    agent_card.capabilities = ({} : AgentCapabilities) ∧
    agent_card.capabilities.streaming = none ∧
    agent_card.capabilities.pushNotifications = none ∧
    agent_card.capabilities.stateTransitionHistory = none :=
  ⟨rfl, rfl, rfl, rfl⟩

end DummyAgent
